import Mathlib

/-!
Shallow embedding of the `spotify-create-playlist` pipeline
(`src/fingerprint_to_queries.py` and `src/create_playlist.py`).

Python machine model: unbounded ints are `Int`/`Nat`; audio buffers are lists
of millisecond samples; exceptions raised by external libraries (pydub,
pyacoustid, mutagen, spotipy) are explicit outcome values; dictionaries
returned by the AcoustID web service are structures mirroring the fields the
code reads.  Every definition follows the corresponding Python function
line by line.
-/

namespace SpotifyPlaylist

/-! ### AcoustID response model (`fingerprint_and_lookup`, lines 72-113)

The code reads, from each result dict `r`: `r.get("recordings") or []`,
then `rec.get("title")`, `rec.get("artists") or []`, `artists[0].get("name")`.
Absent `recordings`/`artists` keys behave exactly like empty lists (the
`or []`), so they are modelled as lists directly; `title` and `name` may be
absent, hence `Option String`. -/

structure ArtistEntry where
  name : Option String
deriving DecidableEq

structure Recording where
  title : Option String
  artists : List ArtistEntry
deriving DecidableEq

structure CandResult where
  recordings : List Recording
deriving DecidableEq

/-- Shape of the value returned by `acoustid.lookup`: some pyacoustid versions
return a `(status, list)` tuple, others a bare list; anything else makes the
extraction loop raise, which the code absorbs into `None` (`malformed`). -/
inductive LookupResults where
  | pair (status : String) (cands : List CandResult)
  | bare (cands : List CandResult)
  | malformed
deriving DecidableEq

/-- Outcome of the external fingerprint/lookup calls for one segment:
`acoustid.fingerprint_file` raised, `acoustid.lookup` raised, or a response
value was obtained. -/
inductive FpOutcome where
  | fpError
  | lookupError
  | ok (results : LookupResults)
deriving DecidableEq

/-- `artists[0].get("name") if artists else None` (line 107). -/
def firstArtist : List ArtistEntry → Option String
  | [] => none
  | a :: _ => a.name

/-- The extraction loop of `fingerprint_and_lookup` (lines 100-111):
walk the candidate list; for a result with a non-empty `recordings` list take
`recordings[0]`; if its `title` is truthy return `(title, artist or "")`,
otherwise keep scanning. -/
def extractMeta : List CandResult → Option (String × String)
  | [] => none
  | r :: rest =>
    match r.recordings with
    | [] => extractMeta rest
    | r0 :: _ =>
      match r0.title with
      | some t =>
        if t ≠ "" then some (t, (firstArtist r0.artists).getD "")
        else extractMeta rest
      | none => extractMeta rest

/-- Normalization at line 95: `results[1] if isinstance(results, tuple) and
len(results) > 1 else results`; a malformed shape makes the subsequent loop
raise, absorbed by the `except` into no candidate. -/
def normalizeResults : LookupResults → Option (List CandResult)
  | .pair _ cands => some cands
  | .bare cands => some cands
  | .malformed => none

/-- `fingerprint_and_lookup` (lines 72-113).  `acoustidAvailable` models
`acoustid is not None` (the import succeeded); `key` is `acoustid_key`.
All failures yield `none`, never an exception. -/
def fingerprint_and_lookup (acoustidAvailable : Bool) (key : Option String)
    (o : FpOutcome) : Option (String × String) :=
  if !acoustidAvailable || key.isNone then none
  else
    match o with
    | .fpError => none
    | .lookupError => none
    | .ok results =>
      match normalizeResults results with
      | none => none
      | some cands => extractMeta cands

/-! ### Tag tier (`read_tags`, lines 116-145)

Mutagen tag values are either scalar strings (e.g. `str()` of an ID3 frame)
or lists of strings (MP4/Vorbis style); Python truthiness of such a value is
"non-empty".  `TagEnv` records what the mutagen objects for one file expose:
whether `MutagenFile(path)` raised, whether `m` and `m.tags` are truthy, the
text of the `TIT2`/`TPE1` frames when present, and the values under the
generic `title`/`artist` keys. -/

inductive TagVal where
  | s (v : String)
  | l (vs : List String)
deriving DecidableEq

/-- Python truthiness of an optional tag value (`None`, `""` and `[]` are
falsy). -/
def tvTruthy : Option TagVal → Bool
  | none => false
  | some (.s v) => v ≠ ""
  | some (.l vs) => !vs.isEmpty

/-- Python `a or b` over tag values. -/
def pyOr (a b : Option TagVal) : Option TagVal :=
  if tvTruthy a then a else b

structure TagEnv where
  readError : Bool
  present : Bool
  tit2 : Option String
  tpe1 : Option String
  titleGeneric : Option TagVal
  artistGeneric : Option TagVal
deriving DecidableEq

/-- `if isinstance(x, list): x = x[0]` (lines 138-141); `none` in the outer
`Option` is the `IndexError` on an empty list, which the enclosing `except`
turns into no candidate. -/
def normTagVal : Option TagVal → Option (Option String)
  | some (.l []) => none
  | some (.l (v :: _)) => some (some v)
  | some (.s v) => some (some v)
  | none => some none

/-- `read_tags` (lines 116-145).  `mutagenAvailable` models
`MutagenFile is not None`.  Returns `(title, artist)` only when the final
`title` is truthy; every failure path yields `none`. -/
def read_tags (mutagenAvailable : Bool) (env : TagEnv) :
    Option (String × String) :=
  if !mutagenAvailable then none
  else if env.readError then none
  else if !env.present then none
  else
    let title0 := env.tit2.map TagVal.s
    let artist0 := env.tpe1.map TagVal.s
    let title1 :=
      if tvTruthy title0 then title0
      else pyOr env.titleGeneric (env.tit2.map TagVal.s)
    let artist1 :=
      if tvTruthy artist0 then artist0
      else pyOr env.artistGeneric (env.tpe1.map TagVal.s)
    match normTagVal title1, normTagVal artist1 with
    | some titleN, some artistN =>
      match titleN with
      | some t =>
        if t ≠ "" then
          some (t, match artistN with
                   | some a => if a = "" then "" else a
                   | none => "")
        else none
      | none => none
    | _, _ => none

/-! ### Query formatting and the per-segment resolver -/

/-- `make_query_from_metadata` (lines 148-154): `if meta and meta[0]` — a
tuple is truthy, so the test is that the title is non-empty. -/
def make_query_from_metadata (meta : Option (String × String)) (index : Nat) :
    String :=
  match meta with
  | some (title, artist) =>
    if title ≠ "" then
      if artist ≠ "" then title ++ " - " ++ artist else title
    else "Unknown Track " ++ toString (index + 1)
  | none => "Unknown Track " ++ toString (index + 1)

/-- Python truthiness of `acoustid_key` (line 182: `if acoustid_key:`). -/
def optStrTruthy : Option String → Bool
  | none => false
  | some s => s ≠ ""

/-- Run-wide configuration of `process_file`: library availability, the
AcoustID key, and the tag data of the *original source file*
(`read_tags(input_path)` at line 187). -/
structure Env where
  acoustidAvailable : Bool
  mutagenAvailable : Bool
  acoustid_key : Option String
  sourceTags : TagEnv
deriving DecidableEq

/-- Fingerprint tier as invoked by the orchestrator (lines 181-183). -/
def fpTier (env : Env) (fp : FpOutcome) : Option (String × String) :=
  if optStrTruthy env.acoustid_key then
    fingerprint_and_lookup env.acoustidAvailable env.acoustid_key fp
  else none

/-- Tag tier as invoked by the orchestrator (line 187):
`read_tags(input_path) if i == 0 else None`. -/
def tagTier (env : Env) (i : Nat) : Option (String × String) :=
  if i = 0 then read_tags env.mutagenAvailable env.sourceTags else none

/-- Per-segment resolution (lines 180-189).  `segTags` is the tag data of the
exported temporary segment file (`tf.name`) — it is in scope at this point of
the code but never read, since `read_tags` is applied to `input_path`. -/
def resolveSegment (env : Env) (segTags : TagEnv) (fp : FpOutcome) (i : Nat) :
    Option (String × String) :=
  match fpTier env fp with
  | some m => some m
  | none =>
    match tagTier env i with
    | some m => some m
    | none => none

/-! ### The orchestrator loop (`process_file`, lines 157-209)

Two views of the same `for`/`try`/`finally` loop, one fine enough for the
temp-file lifecycle (including the path where processing a segment raises an
unexpected exception, e.g. from `seg.export`), one for the produced queries
on the non-raising path. -/

/-- What happens while processing one segment: resolution runs to completion
with fingerprint outcome `fp` and segment-file tags `segTags`, or an
unexpected exception is raised after the temp file was recorded in
`temp_files` (the append at line 176 precedes `seg.export` and resolution). -/
inductive SegBehavior where
  | ok (fp : FpOutcome) (segTags : TagEnv)
  | exc
deriving DecidableEq

/-- Observable resource events of a run: creation of the temporary exported
file for segment `i`, and `os.unlink` of it. -/
inductive Ev where
  | create (i : Nat)
  | unlink (i : Nat)
deriving DecidableEq

/-- The `for` body of `process_file` (lines 172-193): returns the events of
the loop, the accumulated `temp_files` list (files named by segment index),
and either the query list or the exception that escaped the loop. -/
def segLoop (env : Env) : Nat → List SegBehavior →
    List Ev × List Nat × Except Unit (List String)
  | _, [] => ([], [], Except.ok [])
  | i, SegBehavior.exc :: _ => ([Ev.create i], [i], Except.error ())
  | i, SegBehavior.ok fp st :: rest =>
    let q := make_query_from_metadata (resolveSegment env st fp i) i
    let r := segLoop env (i + 1) rest
    (Ev.create i :: r.1, i :: r.2.1, r.2.2.map (fun qs => q :: qs))

/-- `process_file`, loop plus `finally` (lines 195-201): on every exit path
the `finally` block unlinks each recorded temp file.  First component: the
full event trace; second: the run result (`error` when the loop raised). -/
def process_file (env : Env) (bs : List SegBehavior) :
    List Ev × Except Unit (List String) :=
  let r := segLoop env 0 bs
  (r.1 ++ r.2.1.map Ev.unlink, r.2.2)

/-- Query list of a non-raising run, indexed from `i` (same loop as
`segLoop`, queries only). -/
def queriesFrom (env : Env) : Nat → List (FpOutcome × TagEnv) → List String
  | _, [] => []
  | i, (fp, st) :: rest =>
    make_query_from_metadata (resolveSegment env st fp i) i ::
      queriesFrom env (i + 1) rest

/-- The query list produced by `process_file` when no segment raises. -/
def processQueries (env : Env) (segs : List (FpOutcome × TagEnv)) :
    List String :=
  queriesFrom env 0 segs

/-! ### Segmenter (`split_on_silence`, lines 55-69, and lines 165-167)

An `AudioSegment` is its list of millisecond samples; `len(audio)` is the
list length; `detect_nonsilent` is the external pydub call, so its result
(the list of `(start, end)` ranges) is a parameter.  `audio[s:e]` is the
Python slice. -/

/-- Python slice `audio[s:e]` for clamped indices. -/
def pySlice (xs : List Int) (s e : Int) : List Int :=
  (xs.take e.toNat).drop s.toNat

/-- The range computation of the loop body (lines 66-67):
`s = max(0, start - keep_silence)`, `e = min(len(audio), end + keep_silence)`.
Returns the emitted ranges in loop order. -/
def splitRangesLoop (total keep : Int) : List (Int × Int) → List (Int × Int)
  | [] => []
  | (s, e) :: rest =>
    (max 0 (s - keep), min total (e + keep)) :: splitRangesLoop total keep rest

/-- `split_on_silence` (lines 55-69): one slice appended per detected range,
in order. -/
def split_on_silence (audio : List Int) (nonSilentRanges : List (Int × Int))
    (keep : Int) : List (List Int) :=
  (splitRangesLoop (audio.length : Int) keep nonSilentRanges).map
    (fun r => pySlice audio r.1 r.2)

/-- Lines 165-167 of `process_file`: `if not segments: segments = [audio]`. -/
def pipelineSegments (audio : List Int) (nonSilentRanges : List (Int × Int))
    (keep : Int) : List (List Int) :=
  let segs := split_on_silence audio nonSilentRanges keep
  if segs.isEmpty then [audio] else segs

/-! ### Downstream consumer (`create_playlist.py`, lines 38-85)

`sp.search` for one query either raises `SpotifyException` (caught at line
75), returns no items, or returns a top track whose URI is collected. -/

inductive SearchOutcome where
  | err
  | notFound
  | found (uri : String)
deriving DecidableEq

/-- Observable calls of `create_playlist_and_add_tracks` against the Spotify
client, in order. -/
inductive SpEv where
  | createPlaylist (name : String)
  | searchCall (q : String)
  | addItems (uris : List String)
deriving DecidableEq

/-- Python `str.strip()`: drop leading and trailing whitespace. -/
def pyStrip (s : String) : String :=
  String.mk
    (((s.data.dropWhile Char.isWhitespace).reverse.dropWhile
        Char.isWhitespace).reverse)

/-- The query loop (lines 56-76): skip blank queries before searching
(`if not q or not q.strip(): continue`), catch `SpotifyException` per query.
Returns the collected `track_uris` and the search events. -/
def collectUris (search : String → SearchOutcome) :
    List String → List String × List SpEv
  | [] => ([], [])
  | q :: rest =>
    if q = "" || pyStrip q = "" then collectUris search rest
    else
      match search q with
      | .found u =>
        let r := collectUris search rest
        (u :: r.1, SpEv.searchCall q :: r.2)
      | .notFound =>
        let r := collectUris search rest
        (r.1, SpEv.searchCall q :: r.2)
      | .err =>
        let r := collectUris search rest
        (r.1, SpEv.searchCall q :: r.2)

/-- `create_playlist_and_add_tracks` (lines 38-85): create the playlist
first (line 52), run the query loop, call `playlist_add_items` once when any
URI was collected (lines 78-80), and return the playlist object.  `playlist`
stands for the dict returned by `sp.user_playlist_create`. -/
def create_playlist_and_add_tracks (search : String → SearchOutcome)
    (playlist : String) (song_queries : List String) : String × List SpEv :=
  let r := collectUris search song_queries
  (playlist,
    SpEv.createPlaylist playlist ::
      (r.2 ++ (if r.1.isEmpty then [] else [SpEv.addItems r.1])))

/-! ### Concrete sample values used by witnesses -/

/-- A tag environment with nothing present. -/
def tagEnvNone : TagEnv := ⟨false, false, none, none, none, none⟩

/-- A run environment with no libraries and no key configured. -/
def envBare : Env := ⟨false, false, none, tagEnvNone⟩

/-- A run environment with libraries available and a key configured. -/
def envWithKey : Env := ⟨true, true, some "key", tagEnvNone⟩

/-- Scenario B response: one result, one recording, title `Imagine`, sole
artist `John Lennon`. -/
def imagineResponse : List CandResult :=
  [⟨[⟨some "Imagine", [⟨some "John Lennon"⟩]⟩]⟩]

/-- Fingerprint outcome delivering the Scenario B response as a bare list. -/
def fpImagine : FpOutcome := .ok (.bare imagineResponse)

end SpotifyPlaylist
namespace SpotifyPlaylist

lemma append_ne_empty_left (t s : String) (h : t ≠ "") : t ++ s ≠ "" := by
  intro he
  apply h
  have hl : (t ++ s).length = 0 := by rw [he]; rfl
  rw [String.length_append] at hl
  have h0 : t.length = 0 := by omega
  cases t with
  | mk l =>
    cases l with
    | nil => rfl
    | cons c cs => simp [String.length] at h0

lemma extractMeta_title_ne (cands : List CandResult) (t a : String)
    (h : extractMeta cands = some (t, a)) : t ≠ "" := by
  induction cands with
  | nil => simp [extractMeta] at h
  | cons r rest ih =>
    rw [extractMeta] at h
    split at h
    · exact ih h
    · split at h
      · split at h
        next ht0 =>
          obtain ⟨h1, -⟩ := Prod.mk.injEq .. ▸ Option.some.inj h
          exact h1 ▸ ht0
        next => exact ih h
      · exact ih h

end SpotifyPlaylist
namespace SpotifyPlaylist

lemma read_tags_title_ne (avail : Bool) (env : TagEnv) (t a : String)
    (h : read_tags avail env = some (t, a)) : t ≠ "" := by
  rw [read_tags] at h
  split at h
  · simp at h
  · split at h
    · simp at h
    · split at h
      · simp at h
      · dsimp only at h
        split at h
        · split at h
          · split at h
            next ht1 =>
              obtain ⟨h1, -⟩ := Prod.mk.injEq .. ▸ Option.some.inj h
              exact h1 ▸ ht1
            next => simp at h
          · simp at h
        · simp at h

lemma fingerprint_title_ne (avail : Bool) (key : Option String)
    (o : FpOutcome) (t a : String)
    (h : fingerprint_and_lookup avail key o = some (t, a)) : t ≠ "" := by
  unfold fingerprint_and_lookup at h
  split at h
  · simp at h
  · split at h
    · simp at h
    · simp at h
    · split at h
      · simp at h
      · exact extractMeta_title_ne _ _ _ h

lemma resolveSegment_title_ne (env : Env) (st : TagEnv) (fp : FpOutcome)
    (i : Nat) (t a : String)
    (h : resolveSegment env st fp i = some (t, a)) : t ≠ "" := by
  rw [resolveSegment] at h
  split at h
  next m hm =>
    obtain rfl := Option.some.inj h
    rw [fpTier] at hm
    split at hm
    · exact fingerprint_title_ne _ _ _ _ _ hm
    · simp at hm
  next hm =>
    split at h
    next m2 hm2 =>
      obtain rfl := Option.some.inj h
      rw [tagTier] at hm2
      split at hm2
      · exact read_tags_title_ne _ _ _ _ hm2
      · simp at hm2
    next => simp at h

lemma queriesFrom_length (env : Env) (i : Nat)
    (segs : List (FpOutcome × TagEnv)) :
    (queriesFrom env i segs).length = segs.length := by
  induction segs generalizing i with
  | nil => rfl
  | cons p rest ih =>
    cases p with
    | mk fp st => simp [queriesFrom, ih]

lemma queriesFrom_get? (env : Env) (i : Nat)
    (segs : List (FpOutcome × TagEnv)) (j : Nat) :
    (queriesFrom env i segs).get? j =
      (segs.get? j).map (fun p =>
        make_query_from_metadata (resolveSegment env p.2 p.1 (i + j)) (i + j)) := by
  induction segs generalizing i j with
  | nil => simp [queriesFrom]
  | cons p rest ih =>
    cases p with
    | mk fp st =>
      cases j with
      | zero => simp [queriesFrom]
      | succ j =>
        have hih := ih (i + 1) j
        have harith : i + 1 + j = i + (j + 1) := by omega
        rw [harith] at hih
        simpa [queriesFrom] using hih

lemma segLoop_events (env : Env) (i : Nat) (bs : List SegBehavior) :
    (segLoop env i bs).1 = (segLoop env i bs).2.1.map Ev.create := by
  induction bs generalizing i with
  | nil => rfl
  | cons b rest ih =>
    cases b with
    | exc => rfl
    | ok fp st => simp [segLoop, ih (i + 1)]

lemma splitRangesLoop_get? (total keep : Int) (ranges : List (Int × Int))
    (j : Nat) :
    (splitRangesLoop total keep ranges).get? j =
      (ranges.get? j).map (fun p => (max 0 (p.1 - keep), min total (p.2 + keep))) := by
  induction ranges generalizing j with
  | nil => simp [splitRangesLoop]
  | cons p rest ih =>
    cases p with
    | mk s e =>
      cases j with
      | zero => simp [splitRangesLoop]
      | succ j => simpa [splitRangesLoop] using ih j

lemma splitRangesLoop_mem (total keep : Int) (ranges : List (Int × Int))
    (r : Int × Int) (h : r ∈ splitRangesLoop total keep ranges) :
    0 ≤ r.1 ∧ r.2 ≤ total := by
  induction ranges with
  | nil => simp [splitRangesLoop] at h
  | cons p rest ih =>
    cases p with
    | mk s e =>
      rw [splitRangesLoop] at h
      rcases List.mem_cons.mp h with h1 | h2
      · subst h1
        exact ⟨le_max_left 0 _, min_le_left _ _⟩
      · exact ih h2

end SpotifyPlaylist
namespace SpotifyPlaylist

lemma fpTier_fpError (env : Env) : fpTier env FpOutcome.fpError = none := by
  unfold fpTier fingerprint_and_lookup
  split
  · split <;> rfl
  · rfl

lemma read_tags_error (b : Bool) (te : TagEnv) (h : te.readError = true) :
    read_tags b te = none := by
  simp [read_tags, h]

lemma read_tags_no_tags (b : Bool) (te : TagEnv) (h1 : te.readError = false)
    (h2 : te.present = false) : read_tags b te = none := by
  simp [read_tags, h1, h2]

lemma resolveSegment_sourceTags (env : Env) (u : TagEnv) (st : TagEnv)
    (fp : FpOutcome) (j : Nat) (hj : j ≠ 0) :
    resolveSegment { env with sourceTags := u } st fp j =
      resolveSegment env st fp j := by
  simp [resolveSegment, fpTier, tagTier, hj]

/-- C1: identity resolution is total.  For every run configuration, exported
segment tag data, fingerprint outcome and segment index, the produced query
is a non-empty string; when the fingerprint tier and the tag tier both yield
no candidate, the query is the placeholder for that segment; and every
internal failure of fingerprinting, of the lookup call, and of response
parsing is absorbed by `fingerprint_and_lookup` into `none` instead of
propagating. -/
theorem c1_resolution_total (env : Env) (st : TagEnv) (fp : FpOutcome)
    (i : Nat) :
    make_query_from_metadata (resolveSegment env st fp i) i ≠ "" ∧
    (fpTier env fp = none → tagTier env i = none →
      make_query_from_metadata (resolveSegment env st fp i) i =
        "Unknown Track " ++ toString (i + 1)) ∧
    fingerprint_and_lookup env.acoustidAvailable env.acoustid_key
      FpOutcome.fpError = none ∧
    fingerprint_and_lookup env.acoustidAvailable env.acoustid_key
      FpOutcome.lookupError = none ∧
    fingerprint_and_lookup env.acoustidAvailable env.acoustid_key
      (FpOutcome.ok LookupResults.malformed) = none := by
  refine ⟨?_, ?_, ?_, ?_, ?_⟩
  · cases hres : resolveSegment env st fp i with
    | none =>
      simp only [make_query_from_metadata]
      exact append_ne_empty_left "Unknown Track " _ (by decide)
    | some m =>
      obtain ⟨t, a⟩ := m
      have ht := resolveSegment_title_ne env st fp i t a hres
      simp only [make_query_from_metadata, if_pos ht]
      by_cases ha : a ≠ ""
      · rw [if_pos ha]
        exact append_ne_empty_left _ _ (append_ne_empty_left _ _ ht)
      · rw [if_neg ha]
        exact ht
  · intro h1 h2
    simp [resolveSegment, h1, h2, make_query_from_metadata]
  · unfold fingerprint_and_lookup
    split <;> rfl
  · unfold fingerprint_and_lookup
    split <;> rfl
  · unfold fingerprint_and_lookup
    split <;> rfl

/-- Witness for C1 at a concrete input: no key, no tags, segment index 2. -/
theorem c1_witness :
    make_query_from_metadata
      (resolveSegment envBare tagEnvNone FpOutcome.fpError 2) 2 =
      "Unknown Track 3" :=
  ((c1_resolution_total envBare tagEnvNone FpOutcome.fpError 2).2.1
      rfl rfl).trans (by decide)

/-- C4: degenerate segmentation.  For a non-empty buffer with zero detected
non-silent spans, `process_file` treats the whole buffer as the single
segment, and no input ever produces zero segments for a non-empty buffer. -/
theorem c4_degenerate_segmentation (audio : List Int) (keep : Int)
    (h : audio ≠ []) :
    pipelineSegments audio [] keep = [audio] ∧
    ∀ ranges : List (Int × Int), pipelineSegments audio ranges keep ≠ [] := by
  constructor
  · rfl
  · intro ranges
    unfold pipelineSegments
    dsimp only
    split
    · simp
    · next hne =>
      intro hc
      rw [hc] at hne
      simp at hne

/-- Witness for C4: a two-sample buffer with no detected spans. -/
theorem c4_witness : pipelineSegments [0, 1] [] 300 = [[0, 1]] :=
  (c4_degenerate_segmentation [0, 1] 300 (by decide)).1

/-- C5: padding clamp.  Every range emitted by the splitting loop is exactly
`(max 0 (start - keep), min total (end + keep))` for the detected span at the
same position, its start is never negative and its end never exceeds the
buffer length, and a span starting at 50 with `keep_silence = 300` yields a
range starting at 0. -/
theorem c5_padding_clamp (audio : List Int) (ranges : List (Int × Int))
    (keep : Int) (hk : 0 ≤ keep) :
    (∀ j, (splitRangesLoop (audio.length : Int) keep ranges).get? j =
      (ranges.get? j).map (fun p =>
        (max 0 (p.1 - keep), min (audio.length : Int) (p.2 + keep)))) ∧
    (∀ r ∈ splitRangesLoop (audio.length : Int) keep ranges,
      0 ≤ r.1 ∧ r.2 ≤ (audio.length : Int)) ∧
    (∀ e, splitRangesLoop (audio.length : Int) 300 [(50, e)] =
      [(0, min (audio.length : Int) (e + 300))]) := by
  refine ⟨?_, ?_, ?_⟩
  · intro j
    exact splitRangesLoop_get? _ _ _ j
  · intro r hr
    exact splitRangesLoop_mem _ _ _ r hr
  · intro e
    have hm : max 0 ((50 : Int) - 300) = 0 := by decide
    simp [splitRangesLoop, hm]

/-- Witness for C5 at the concrete input of the claim: span starting at 50,
padding 300, three-sample buffer. -/
theorem c5_witness :
    splitRangesLoop ((List.replicate 3 (0 : Int)).length : Int) 300
      [(50, 200)] = [(0, 3)] := by
  have h := (c5_padding_clamp (List.replicate 3 (0 : Int)) [(50, 200)] 300
    (by decide)).2.2 200
  exact h.trans (by decide)

/-- C6: query formatting.  A resolved candidate (whose title is non-empty,
which conjunct three shows holds for every candidate the resolver returns)
formats as title dash artist, or the bare title when the artist is empty;
no candidate gives the 1-based placeholder, e.g. index 2 gives
`Unknown Track 3`. -/
theorem c6_query_formatting (t a : String) (i : Nat) (ht : t ≠ "") :
    make_query_from_metadata (some (t, a)) i =
      (if a = "" then t else t ++ " - " ++ a) ∧
    make_query_from_metadata none i = "Unknown Track " ++ toString (i + 1) ∧
    (∀ env st fp j m, resolveSegment env st fp j = some m → m.1 ≠ "") ∧
    make_query_from_metadata none 2 = "Unknown Track 3" := by
  refine ⟨?_, rfl, ?_, by decide⟩
  · simp only [make_query_from_metadata, if_pos ht]
    by_cases ha : a = ""
    · simp [ha]
    · simp [ha]
  · intro env st fp j m hm
    obtain ⟨mt, ma⟩ := m
    exact resolveSegment_title_ne env st fp j mt ma hm

/-- Witness for C6: the Scenario B candidate at index 0. -/
theorem c6_witness :
    make_query_from_metadata (some ("Imagine", "John Lennon")) 0 =
      "Imagine - John Lennon" :=
  ((c6_query_formatting "Imagine" "John Lennon" 0 (by decide)).1).trans
    (by decide)

end SpotifyPlaylist
namespace SpotifyPlaylist

lemma splitRangesLoop_length (total keep : Int) (ranges : List (Int × Int)) :
    (splitRangesLoop total keep ranges).length = ranges.length := by
  induction ranges with
  | nil => rfl
  | cons p rest ih =>
    cases p with
    | mk s e => simp [splitRangesLoop, ih]

/-- C2: per-segment failure isolation.  Forcing the tiers attempted for
segment `k` to fail (fingerprint error; for `k = 0` also a tag-read error on
the source file) still yields a full-length query list, leaves the query of
every other segment exactly as in the unforced run, and degrades segment
`k` to its placeholder; resolution never aborts the run. -/
theorem c2_failure_isolation (env : Env) (segs : List (FpOutcome × TagEnv))
    (k : Nat) (hk : k < segs.length) :
    let envK := if k = 0 then
        { env with sourceTags := { env.sourceTags with readError := true } }
      else env
    let segsK := segs.set k (FpOutcome.fpError, (segs.get ⟨k, hk⟩).2)
    (processQueries envK segsK).length = segs.length ∧
    (∀ j, j ≠ k →
      (processQueries envK segsK).get? j = (processQueries env segs).get? j) ∧
    (processQueries envK segsK).get? k =
      some ("Unknown Track " ++ toString (k + 1)) := by
  intro envK segsK
  have hlen : segsK.length = segs.length := List.length_set ..
  refine ⟨?_, ?_, ?_⟩
  · rw [processQueries, queriesFrom_length, hlen]
  · intro j hj
    rw [processQueries, processQueries, queriesFrom_get?, queriesFrom_get?]
    have hset : segsK.get? j = segs.get? j :=
      List.get?_set_ne _ _ (fun he => hj he.symm)
    rw [hset]
    cases hg : segs.get? j with
    | none => rfl
    | some p =>
      simp only [Option.map_some']
      congr 1
      show make_query_from_metadata (resolveSegment envK p.2 p.1 (0 + j)) _ =
        make_query_from_metadata (resolveSegment env p.2 p.1 (0 + j)) _
      by_cases hk0 : k = 0
      · have hj0 : 0 + j ≠ 0 := by omega
        have henv : envK =
            { env with sourceTags := { env.sourceTags with readError := true } } := by
          simp [envK, hk0]
        rw [henv, resolveSegment_sourceTags env _ p.2 p.1 (0 + j) hj0]
      · have henv : envK = env := by simp [envK, hk0]
        rw [henv]
  · rw [processQueries, queriesFrom_get?]
    have hset : segsK.get? k = some (FpOutcome.fpError, (segs.get ⟨k, hk⟩).2) :=
      List.get?_set_eq_of_lt _ (by rw [← hlen] at hk; omega)
    rw [hset]
    simp only [Option.map_some']
    have hfp : fpTier envK FpOutcome.fpError = none := fpTier_fpError envK
    have htag : tagTier envK (0 + k) = none := by
      by_cases hk0 : k = 0
      · have henv : envK =
            { env with sourceTags := { env.sourceTags with readError := true } } := by
          simp [envK, hk0]
        rw [henv, hk0, tagTier]
        simp only [Nat.add_zero, if_pos rfl]
        exact read_tags_error _ _ rfl
      · rw [tagTier, if_neg (by omega)]
    rw [show (0 + k) = k from Nat.zero_add k] at htag
    simp only [Nat.zero_add]
    rw [resolveSegment, hfp, htag, make_query_from_metadata]

/-- Witness for C2: forcing segment 1 of a two-segment run to fail. -/
theorem c2_witness :
    (processQueries envWithKey
        [(fpImagine, tagEnvNone), (FpOutcome.fpError, tagEnvNone)]).get? 1 =
      some "Unknown Track 2" := by
  have h := (c2_failure_isolation envWithKey
    [(fpImagine, tagEnvNone), (fpImagine, tagEnvNone)] 1 (by decide)).2.2
  exact h.trans (by decide)

/-- C3: order preservation.  The splitter emits exactly one segment per
detected range, positionally (the slice of the clamped range at the same
index), and the orchestrator emits exactly one query per segment, where the
query at position `j` is a function only of position `j` and segment `j`'s
resolution data — so the output order equals the segmenter's range order and
cannot depend on which resolution tier succeeded. -/
theorem c3_order_preservation (env : Env) (segs : List (FpOutcome × TagEnv))
    (audio : List Int) (ranges : List (Int × Int)) (keep : Int) :
    (split_on_silence audio ranges keep).length = ranges.length ∧
    (∀ j, (split_on_silence audio ranges keep).get? j =
      (ranges.get? j).map (fun p =>
        pySlice audio (max 0 (p.1 - keep))
          (min (audio.length : Int) (p.2 + keep)))) ∧
    (processQueries env segs).length = segs.length ∧
    (∀ j, (processQueries env segs).get? j =
      (segs.get? j).map (fun p =>
        make_query_from_metadata (resolveSegment env p.2 p.1 j) j)) := by
  refine ⟨?_, ?_, ?_, ?_⟩
  · rw [split_on_silence, List.length_map, splitRangesLoop_length]
  · intro j
    rw [split_on_silence, List.get?_map, splitRangesLoop_get?,
      Option.map_map]
    rfl
  · rw [processQueries, queriesFrom_length]
  · intro j
    rw [processQueries, queriesFrom_get?]
    simp only [Nat.zero_add]

end SpotifyPlaylist
namespace SpotifyPlaylist

/-- The recognition response refuting C7 as stated: the first result has one
recording entry (with no title); the second result carries the Imagine
recording.  The code skips the first and answers from the second. -/
def badResponse : List CandResult :=
  [⟨[⟨none, []⟩]⟩, ⟨[⟨some "Imagine", [⟨some "John Lennon"⟩]⟩]⟩]

/-- Extraction as the claim words it (for comparison with `extractMeta`):
take the first result with at least one associated recording entry and use
that recording's title and first artist name. -/
def claimedExtract (cands : List CandResult) : Option (String × String) :=
  (cands.find? (fun r => !r.recordings.isEmpty)).bind (fun r =>
    match r.recordings with
    | [] => none
    | r0 :: _ => r0.title.map (fun t => (t, (firstArtist r0.artists).getD "")))

/-- C7 counterexample: on `badResponse` the first result with a recording
entry is the title-less one, yet the code returns the candidate taken from
the second result, so the claimed first-result rule does not describe
`extractMeta`. -/
theorem c7_counterexample :
    extractMeta badResponse = some ("Imagine", "John Lennon") ∧
    claimedExtract badResponse = none ∧
    ((badResponse.find? (fun r => !r.recordings.isEmpty)).isSome = true) ∧
    extractMeta badResponse ≠ claimedExtract badResponse := by
  exact ⟨rfl, rfl, rfl, by decide⟩

/-- Acceptance test the code actually applies to a result: at least one
recording entry whose first recording has a truthy title. -/
def amendedAccept (r : CandResult) : Bool :=
  match r.recordings with
  | [] => false
  | r0 :: _ =>
    match r0.title with
    | some t => t != ""
    | none => false

/-- First result accepted by the code's rule. -/
def amendedFirst (cands : List CandResult) : Option CandResult :=
  cands.find? amendedAccept

/-- C7 amended: the candidate is taken from the first result whose *first
recording entry has a non-empty title* (results with recording entries but a
missing or empty first title are skipped), using that recording's title and
the name of its first listed artist, empty string when no artist or name is
listed; the Scenario B response still yields `Imagine - John Lennon`. -/
theorem c7_amended_extraction (cands : List CandResult) :
    extractMeta cands =
      (amendedFirst cands).bind (fun r =>
        match r.recordings with
        | [] => none
        | r0 :: _ => r0.title.map (fun t =>
            (t, (firstArtist r0.artists).getD ""))) ∧
    extractMeta imagineResponse = some ("Imagine", "John Lennon") := by
  refine ⟨?_, rfl⟩
  induction cands with
  | nil => rfl
  | cons r rest ih =>
    obtain ⟨recs⟩ := r
    cases recs with
    | nil =>
      simpa [extractMeta, amendedFirst, amendedAccept, List.find?] using ih
    | cons r0 rs =>
      obtain ⟨title, artists⟩ := r0
      cases title with
      | none =>
        simpa [extractMeta, amendedFirst, amendedAccept, List.find?] using ih
      | some t =>
        by_cases ht : t = ""
        · subst ht
          simpa [extractMeta, amendedFirst, amendedAccept, List.find?] using ih
        · have htb : (t != "") = true := by simpa using ht
          simp [extractMeta, amendedFirst, amendedAccept, List.find?, htb, ht]

/-- C8: tag-tier policy.  The tag tier yields nothing for any segment index
other than 0; a fingerprint-tier candidate preempts it; resolution does not
depend on the exported segment's own tag data (only the source file's);
list-typed title and artist values are normalized to their first elements;
and a read error, absent tags, or an unavailable mutagen all yield no
candidate rather than an error. -/
theorem c8_tag_tier_policy (env : Env) (st st2 : TagEnv) (fp : FpOutcome)
    (i : Nat) (m : String × String) (t a : String) (ts as2 : List String) :
    (i ≠ 0 → tagTier env i = none) ∧
    (fpTier env fp = some m → resolveSegment env st fp i = some m) ∧
    resolveSegment env st fp i = resolveSegment env st2 fp i ∧
    (read_tags true
        ⟨false, true, none, none, some (TagVal.l (t :: ts)),
          some (TagVal.l (a :: as2))⟩ =
      if t = "" then none else some (t, a)) ∧
    read_tags env.mutagenAvailable
      { env.sourceTags with readError := true } = none ∧
    read_tags env.mutagenAvailable
      { env.sourceTags with readError := false, present := false } = none ∧
    read_tags false env.sourceTags = none := by
  refine ⟨?_, ?_, rfl, ?_, ?_, ?_, rfl⟩
  · intro h
    simp [tagTier, h]
  · intro h
    simp [resolveSegment, h]
  · by_cases ht : t = ""
    · subst ht
      simp [read_tags, tvTruthy, pyOr, normTagVal]
    · by_cases ha : a = ""
      · subst ha
        simp [read_tags, tvTruthy, pyOr, normTagVal, ht]
      · simp [read_tags, tvTruthy, pyOr, normTagVal, ht, ha]
  · exact read_tags_error _ _ rfl
  · exact read_tags_no_tags _ _ rfl rfl

/-- Witness for C8: Scenario C tags — list-typed title `Hey Jude`, list-typed
artist whose first element is empty. -/
theorem c8_witness :
    read_tags true
      ⟨false, true, none, none, some (TagVal.l ["Hey Jude", "x"]),
        some (TagVal.l ["", "y"])⟩ = some ("Hey Jude", "") := by
  have h := (c8_tag_tier_policy envBare tagEnvNone tagEnvNone
    FpOutcome.fpError 1 ("", "") "Hey Jude" "" ["x"] ["y"]).2.2.2.1
  exact h.trans (by decide)

/-- C9: segment-material cleanup.  In every run — including runs where the
loop body raises while processing some segment — every temporary segment
file that was created is unlinked by the `finally` block before
`process_file` returns or re-raises. -/
theorem c9_segment_cleanup (env : Env) (bs : List SegBehavior) (i : Nat)
    (h : Ev.create i ∈ (process_file env bs).1) :
    Ev.unlink i ∈ (process_file env bs).1 := by
  simp only [process_file] at h ⊢
  rw [List.mem_append] at h ⊢
  rcases h with h1 | h2
  · right
    rw [segLoop_events] at h1
    rw [List.mem_map] at h1 ⊢
    obtain ⟨n, hn, he⟩ := h1
    refine ⟨n, hn, ?_⟩
    injection he with h3
    rw [h3]
  · right
    rw [List.mem_map] at h2 ⊢
    obtain ⟨n, hn, he⟩ := h2
    exact absurd he (by intro hc; exact Ev.noConfusion hc)

/-- Witness for C9: a run whose second segment raises; the temp files of
both segments are still unlinked. -/
theorem c9_witness :
    Ev.unlink 1 ∈ (process_file envBare
      [SegBehavior.ok FpOutcome.fpError tagEnvNone, SegBehavior.exc]).1 :=
  c9_segment_cleanup envBare
    [SegBehavior.ok FpOutcome.fpError tagEnvNone, SegBehavior.exc] 1
    (by decide)

lemma collectUris_events (search : String → SearchOutcome) (qs : List String)
    (ev : SpEv) (h : ev ∈ (collectUris search qs).2) :
    ∃ q0, ev = SpEv.searchCall q0 ∧ (q0 = "" || pyStrip q0 = "") = false := by
  induction qs with
  | nil => simp [collectUris] at h
  | cons q rest ih =>
    by_cases hb : (q = "" || pyStrip q = "") = true
    · rw [collectUris, if_pos hb] at h
      exact ih h
    · have hbf : (q = "" || pyStrip q = "") = false := by
        simpa using hb
      cases hs : search q with
      | found u =>
        rw [collectUris, if_neg hb] at h
        simp only [hs] at h
        rcases List.mem_cons.mp h with h1 | h2
        · exact ⟨q, h1, hbf⟩
        · exact ih h2
      | notFound =>
        rw [collectUris, if_neg hb] at h
        simp only [hs] at h
        rcases List.mem_cons.mp h with h1 | h2
        · exact ⟨q, h1, hbf⟩
        · exact ih h2
      | err =>
        rw [collectUris, if_neg hb] at h
        simp only [hs] at h
        rcases List.mem_cons.mp h with h1 | h2
        · exact ⟨q, h1, hbf⟩
        · exact ih h2

/-- C10: downstream consumer robustness.  The playlist object is returned
unconditionally and its creation is the first client call; the collected
URIs are exactly the found-URIs of the non-blank queries in order (so an
erroring or unmatched search drops only its own query); blank queries are
never searched. -/
theorem c10_consumer_robustness (search : String → SearchOutcome)
    (pl : String) (queries : List String) :
    (create_playlist_and_add_tracks search pl queries).1 = pl ∧
    ((create_playlist_and_add_tracks search pl queries).2).head? =
      some (SpEv.createPlaylist pl) ∧
    (collectUris search queries).1 = queries.filterMap (fun q =>
      if q = "" || pyStrip q = "" then none
      else match search q with
        | .found u => some u
        | .notFound => none
        | .err => none) ∧
    (∀ q, (q = "" || pyStrip q = "") = true →
      SpEv.searchCall q ∉ (create_playlist_and_add_tracks search pl queries).2) := by
  refine ⟨rfl, rfl, ?_, ?_⟩
  · induction queries with
    | nil => rfl
    | cons q rest ih =>
      by_cases hb : (q = "" || pyStrip q = "") = true
      · rw [collectUris, if_pos hb, List.filterMap_cons]
        simp only [hb]
        exact ih
      · cases hs : search q with
        | found u =>
          rw [collectUris, if_neg hb, List.filterMap_cons]
          simp only [hs, Bool.not_eq_true] at *
          simp only [hb]
          simpa [hs] using congrArg (List.cons u) ih
        | notFound =>
          rw [collectUris, if_neg hb, List.filterMap_cons]
          simp only [hb, hs]
          simpa [hs] using ih
        | err =>
          rw [collectUris, if_neg hb, List.filterMap_cons]
          simp only [hb, hs]
          simpa [hs] using ih
  · intro q hq hmem
    simp only [create_playlist_and_add_tracks] at hmem
    rcases List.mem_cons.mp hmem with h1 | h2
    · exact SpEv.noConfusion h1
    · rcases List.mem_append.mp h2 with h3 | h4
      · obtain ⟨q0, he, hbl⟩ := collectUris_events search queries _ h3
        have hqq : q = q0 := by injection he
        rw [← hqq, hq] at hbl
        exact Bool.noConfusion hbl
      · split at h4
        · simp at h4
        · rcases List.mem_singleton.mp h4 with h5
          exact SpEv.noConfusion h5

/-- A Spotify search stub whose every call raises `SpotifyException`. -/
def searchAlwaysErr : String → SearchOutcome := fun _ => SearchOutcome.err

/-- Witness for C10: a blank query and an erroring search still return the
created playlist, and the blank query is never searched. -/
theorem c10_witness :
    (create_playlist_and_add_tracks searchAlwaysErr "pl"
        ["  ", "Imagine - John Lennon"]).1 = "pl" ∧
    SpEv.searchCall "  " ∉
      (create_playlist_and_add_tracks searchAlwaysErr "pl"
        ["  ", "Imagine - John Lennon"]).2 :=
  ⟨(c10_consumer_robustness searchAlwaysErr "pl"
      ["  ", "Imagine - John Lennon"]).1,
    (c10_consumer_robustness searchAlwaysErr "pl"
      ["  ", "Imagine - John Lennon"]).2.2.2 "  " (by decide)⟩

end SpotifyPlaylist
